import Mathlib

/-!
Verification of the data-analyst agent backend: a shallow embedding of the
query router (`ai_service.py`), the profiling engine (`data_analyzer.py`)
and the insight narrator (`SimpleInsightsEngine`), together with proofs of
the behavioural properties documented in the specification.

Tables are modelled as ordered lists of named, typed columns whose cells are
nullable scalars; pandas operations used by the source (column lookup by
exact name, `dropna`, `value_counts`, `isnull` counting, `duplicated`,
`select_dtypes`) are translated to executable list functions.  Real-valued
percentages are modelled with exact rationals.
-/

namespace DataAgent

/-- A scalar cell value: a number or a string (pandas object). -/
inductive Cell where
  | num (z : ℤ)
  | str (s : String)
deriving DecidableEq, Repr

/-- Declared column dtype, as reported by `select_dtypes` in the source:
numeric (`np.number`), object (categorical/text), datetime, or other. -/
inductive Dtype where
  | numeric
  | object
  | datetime
  | other
deriving DecidableEq, Repr

/-- One named column with a declared dtype and nullable cell values. -/
structure Col where
  name : String
  dtype : Dtype
  values : List (Option Cell)
deriving DecidableEq, Repr

/-- A table is an ordered list of columns (a DataFrame). -/
abbrev Table := List Col

/-- `df.columns.tolist()`. -/
def colNames (t : Table) : List String := t.map Col.name

/-- Column lookup by exact name, as in `df['Name']` / `'Name' in df.columns`. -/
def findCol (t : Table) (n : String) : Option Col :=
  t.find? (fun c => c.name == n)

/-- `df.shape[0]`: the row count (all columns share it in a well-formed table). -/
def nrows (t : Table) : ℕ :=
  match t with
  | [] => 0
  | c :: _ => c.values.length

/-- `df.shape[1]`: the column count. -/
def ncols (t : Table) : ℕ := t.length

/-- A table is rectangular: every column has `nrows t` values. -/
def Rect (t : Table) : Prop := ∀ c ∈ t, c.values.length = nrows t

/-- `series.dropna().tolist()`: the non-null values of a column, in order. -/
def Col.nonNull (c : Col) : List Cell := c.values.filterMap id

/-- `series.notna().sum()`. -/
def Col.nonNullCount (c : Col) : ℕ := c.values.countP (fun v => v.isSome)

/-- `series.isnull().sum()`. -/
def Col.missingCount (c : Col) : ℕ := c.values.countP (fun v => v.isNone)

/-- `series.value_counts().get(x, 0)`: occurrences of `x` among non-null cells. -/
def Col.countVal (c : Col) (x : Cell) : ℕ := c.nonNull.count x

/-- `series.nunique()`: distinct non-null values. -/
def Col.nunique (c : Col) : ℕ := c.nonNull.dedup.length

/-- `df.select_dtypes(include=[np.number]).columns`. -/
def numericCols (t : Table) : List Col :=
  t.filter (fun c => c.dtype == .numeric)

/-- `df.select_dtypes(include=['object']).columns`. -/
def categoricalCols (t : Table) : List Col :=
  t.filter (fun c => c.dtype == .object)

/-- The `i`-th row of the table (used by `df.duplicated()`). -/
def rowAt (t : Table) (i : ℕ) : List (Option Cell) :=
  t.map (fun c => c.values.getD i none)

/-- All rows of the table in order. -/
def rowsList (t : Table) : List (List (Option Cell)) :=
  (List.range (nrows t)).map (rowAt t)

/-- `df.duplicated().sum()`: rows equal to some earlier row. -/
def dupRowCount (t : Table) : ℕ :=
  (rowsList t).length - (rowsList t).dedup.length

/-- `df.isnull().sum().sum()`: total missing cells. -/
def missingCells (t : Table) : ℕ :=
  (t.map Col.missingCount).sum

/-- `df.count().sum()`: total non-null cells. -/
def nonNullCells (t : Table) : ℕ :=
  (t.map Col.nonNullCount).sum

/-- Contiguous-sublist test on character lists (Python's `in` on strings). -/
def listContainsSub (needle : List Char) : List Char → Bool
  | [] => needle.isEmpty
  | c :: rest => needle.isPrefixOf (c :: rest) || listContainsSub needle rest

/-- `needle in hay` for Python strings. -/
def strContains (hay needle : String) : Bool :=
  listContainsSub needle.toList hay.toList

/-- `s.lower()` (ASCII case folding, character by character). -/
def strLower (s : String) : String := String.mk (s.toList.map Char.toLower)

/-- The fixed chart-intent keyword list of `_determine_user_intent`. -/
def chartKeywords : List String :=
  ["plot", "chart", "graph", "visualize", "visualization", "show me a",
   "create a", "create", "make a", "draw", "histogram", "bar chart",
   "line chart", "scatter plot", "pie chart", "heatmap", "box plot",
   "distribution chart", "survival chart"]

/-- The fixed text-intent keyword list of `_determine_user_intent`. -/
def textKeywords : List String :=
  ["how many", "what is", "tell me", "explain", "analyze", "summary",
   "count", "average", "mean", "median", "total", "percentage", "why",
   "who", "when", "where", "which", "describe", "compare without"]

/-- `AIService._determine_user_intent`: lower-case the query, return
`"chart"` if any chart keyword occurs, else `"text"` if any text keyword
occurs, else the default `"text"`. -/
def determineUserIntent (userQuery : String) : String :=
  let queryLower := strLower userQuery
  if chartKeywords.any (fun k => strContains queryLower k) then "chart"
  else if textKeywords.any (fun k => strContains queryLower k) then "text"
  else "text"

/-- C1: intent classification is a total function of the lower-cased query:
any occurring chart keyword forces `"chart"` (whatever text keywords occur),
and with no chart keyword the result is `"text"` whether or not a text
keyword occurs. -/
theorem determineUserIntent_chart_precedence (q : String) :
    ((∃ k ∈ chartKeywords, strContains (strLower q) k = true) →
      determineUserIntent q = "chart") ∧
    ((∀ k ∈ chartKeywords, strContains (strLower q) k = false) →
      determineUserIntent q = "text") := by
  constructor
  · rintro ⟨k, hk, hs⟩
    have hany : chartKeywords.any (fun k => strContains (strLower q) k) = true :=
      List.any_eq_true.mpr ⟨k, hk, hs⟩
    simp [determineUserIntent, hany]
  · intro h
    have hany : chartKeywords.any (fun k => strContains (strLower q) k) = false := by
      simp only [List.any_eq_false]
      intro k hk
      simp [h k hk]
    simp only [determineUserIntent, hany, Bool.false_eq_true, if_false]
    split <;> rfl

/-- Witness for C1: "Please plot how many sales" contains both the chart
keyword "plot" and the text keyword "how many" and classifies as `"chart"`;
"how many rows" contains no chart keyword and classifies as `"text"`. -/
theorem determineUserIntent_chart_precedence_witness :
    determineUserIntent "Please plot how many sales" = "chart" ∧
    determineUserIntent "how many rows" = "text" := by
  constructor
  · exact (determineUserIntent_chart_precedence "Please plot how many sales").1
      (by refine ⟨"plot", by decide, by decide⟩)
  · exact (determineUserIntent_chart_precedence "how many rows").2 (by decide)

/-- Render a cell the way Python string interpolation renders the value. -/
def cellText : Cell → String
  | .num z => toString z
  | .str s => s

/-- Ordering on cells used by `sort_index` (numbers before strings). -/
def Cell.le : Cell → Cell → Bool
  | .num a, .num b => a ≤ b
  | .num _, .str _ => true
  | .str _, .num _ => false
  | .str a, .str b => a ≤ b

/-- Stable insertion into a list sorted ascending by `le`. -/
def insertAscBy (le : α → α → Bool) (a : α) : List α → List α
  | [] => [a]
  | b :: l => if le a b then a :: b :: l else b :: insertAscBy le a l

/-- Stable insertion sort, ascending by `le`. -/
def sortAscBy (le : α → α → Bool) : List α → List α
  | [] => []
  | a :: l => insertAscBy le a (sortAscBy le l)

/-- Distinct non-null values with their counts, in first-occurrence order. -/
def valueCountsRaw (l : List Cell) : List (Cell × ℕ) :=
  l.dedup.map (fun x => (x, l.count x))

/-- `series.value_counts()`: distinct values with counts, sorted by count
descending (stable). -/
def valueCounts (l : List Cell) : List (Cell × ℕ) :=
  sortAscBy (fun a b => b.2 ≤ a.2) (valueCountsRaw l)

/-- `series.value_counts().sort_index()`: counts sorted by value ascending. -/
def valueCountsSortIndex (l : List Cell) : List (Cell × ℕ) :=
  sortAscBy (fun a b => Cell.le a.1 b.1) (valueCountsRaw l)

/-- The declarative chart payloads built by the router's chart branches. -/
inductive ChartPayload where
  | pie (labels : List String) (values : List ℕ)
  | histogram (x : List Cell)
  | bar (x : List String) (y : List ℕ)
deriving DecidableEq, Repr

/-- The structured result of a routed query: a text answer
(`{"text_response": ..}`), a chart (`{"chart_json": ..}`) or an error
payload (`{"error": ..}`). -/
inductive Resp where
  | text (s : String)
  | chart (c : ChartPayload)
  | error (msg : String)
deriving DecidableEq, Repr

/-- A conversation turn as passed to the router (`ChatMessage`). -/
structure ChatMessage where
  role : String
  content : String
deriving DecidableEq, Repr

/-- `AIService._create_survival_chart_direct`: pie over the `Survived`
column with fixed labels and the counts of values `0` and `1`, or the
missing-data error payload. -/
def createSurvivalChartDirect (df : Table) : Resp :=
  match findCol df "Survived" with
  | none => .error "Survival data not found in this dataset"
  | some c =>
      .chart (.pie ["Did not survive", "Survived"]
        [c.countVal (.num 0), c.countVal (.num 1)])

/-- `AIService._create_age_chart_direct`: histogram over the non-null
values of the `Age` column, or the missing-data error payload. -/
def createAgeChartDirect (df : Table) : Resp :=
  match findCol df "Age" with
  | none => .error "Age data not found in this dataset"
  | some c => .chart (.histogram c.nonNull)

/-- `AIService._create_class_chart_direct`: bar chart of
`value_counts().sort_index()` of the `Pclass` column. -/
def createClassChartDirect (df : Table) : Resp :=
  match findCol df "Pclass" with
  | none => .error "Passenger class data not found in this dataset"
  | some c =>
      let counts := valueCountsSortIndex c.nonNull
      .chart (.bar (counts.map (fun p => "Class " ++ cellText p.1))
        (counts.map Prod.snd))

/-- `AIService._create_gender_chart_direct`: pie of `value_counts()` of
the `Sex` column. -/
def createGenderChartDirect (df : Table) : Resp :=
  match findCol df "Sex" with
  | none => .error "Gender data not found in this dataset"
  | some c =>
      let counts := valueCounts c.nonNull
      .chart (.pie (counts.map (fun p => cellText p.1)) (counts.map Prod.snd))

/-- First column whose lower-cased name occurs in the lower-cased query,
else the first column overall (the fallback's target-column rule). -/
def firstMentionedOrHead (ql : String) (cols : List Col) : Option Col :=
  match cols.find? (fun c => strContains ql (strLower c.name)) with
  | some c => some c
  | none => cols.head?

/-- The trailing default of `_generate_ai_chart`: top-10 bar chart of the
first categorical column, else the unresolvable-chart error payload. -/
def genericDefaultChart (categorical : List Col) : Resp :=
  match categorical with
  | [] => .error "Could not determine what chart to create from your request"
  | c :: _ =>
      let vc := (valueCounts c.nonNull).take 10
      .chart (.bar (vc.map (fun p => cellText p.1)) (vc.map Prod.snd))

/-- `AIService._generate_ai_chart`: the generic template fallback —
histogram of a mentioned (or first) numeric column, top-10 bar of a
mentioned (or first) categorical column, then the categorical default. -/
def generateAiChart (df : Table) (userQuery : String) : Resp :=
  let ql := strLower userQuery
  let numeric := numericCols df
  let categorical := categoricalCols df
  if strContains ql "histogram" || strContains ql "distribution" then
    match firstMentionedOrHead ql numeric with
    | some c => .chart (.histogram c.nonNull)
    | none => genericDefaultChart categorical
  else if strContains ql "bar" || strContains ql "count" then
    match firstMentionedOrHead ql categorical with
    | some c =>
        let vc := (valueCounts c.nonNull).take 10
        .chart (.bar (vc.map (fun p => cellText p.1)) (vc.map Prod.snd))
    | none => genericDefaultChart categorical
  else genericDefaultChart categorical

/-- `AIService._generate_chart_response`: the fixed-priority direct
template matchers over the lower-cased query, with the generic fallback
last. -/
def generateChartResponse (df : Table) (userQuery : String) : Resp :=
  let ql := strLower userQuery
  if strContains ql "survival" && (strContains ql "chart" || strContains ql "plot") then
    createSurvivalChartDirect df
  else if strContains ql "age" &&
      (strContains ql "distribution" || strContains ql "chart" || strContains ql "histogram") then
    createAgeChartDirect df
  else if (strContains ql "class" || strContains ql "pclass") &&
      (strContains ql "chart" || strContains ql "bar") then
    createClassChartDirect df
  else if strContains ql "gender" || strContains ql "sex" then
    createGenderChartDirect df
  else
    generateAiChart df userQuery

/-- Outcome of the single text-completion call: the completion text, or
the exception it raised. -/
abbrev Oracle := Except String String

/-- ASCII whitespace, for Python's `str.strip()`. -/
def isWs (c : Char) : Bool := c == ' ' || c == '\t' || c == '\n' || c == '\r'

/-- `s.strip()`. -/
def strTrim (s : String) : String :=
  String.mk (((s.toList.dropWhile isWs).reverse.dropWhile isWs).reverse)

/-- `AIService._generate_text_response`: return the trimmed oracle
completion, converting any oracle failure into an error payload. -/
def generateTextResponse (oracle : Oracle) : Resp :=
  match oracle with
  | .ok answer => .text (strTrim answer)
  | .error e => .error ("Failed to generate text response: " ++ e)

/-- `AIService.generate_chart`: the top-level router — classify intent,
then the chart path or the text path; every failure surfaces as an error
payload, never as an exception. -/
def generateChart (oracle : Oracle) (df : Table) (userQuery : String)
    (conversationHistory : List ChatMessage) : Resp :=
  if determineUserIntent userQuery = "chart" then
    generateChartResponse df userQuery
  else
    generateTextResponse oracle

/-- Helper: a name absent from the column list never resolves. -/
theorem findCol_eq_none_of_not_mem {t : Table} {n : String}
    (h : n ∉ colNames t) : findCol t n = none := by
  apply List.find?_eq_none.mpr
  intro c hc
  simp only [beq_iff_eq]
  intro hn
  exact h (hn ▸ List.mem_map_of_mem Col.name hc)

/-- Helper: `filterMap id` flattens a replicated present value. -/
theorem filterMap_id_replicate_some {α : Type} (n : ℕ) (x : α) :
    (List.replicate n (some x)).filterMap id = List.replicate n x := by
  induction n with
  | zero => rfl
  | succ n ih => simp [List.replicate_succ, ih]

/-- C3: the router is total and structured — for every oracle outcome,
table, query and conversation history it returns exactly one of a text
answer, a chart payload or an error payload, and an oracle exception on
the text path becomes an error payload carrying a readable message. -/
theorem generateChart_total_structured (oracle : Oracle) (df : Table)
    (q : String) (hist : List ChatMessage) :
    ((∃ s, generateChart oracle df q hist = .text s) ∨
     (∃ c, generateChart oracle df q hist = .chart c) ∨
     (∃ m, generateChart oracle df q hist = .error m)) ∧
    (∀ e, oracle = .error e → determineUserIntent q = "text" →
      generateChart oracle df q hist =
        .error ("Failed to generate text response: " ++ e)) := by
  constructor
  · cases h : generateChart oracle df q hist with
    | text s => exact .inl ⟨s, rfl⟩
    | chart c => exact .inr (.inl ⟨c, rfl⟩)
    | error m => exact .inr (.inr ⟨m, rfl⟩)
  · rintro e rfl hq
    simp [generateChart, hq, generateTextResponse]

/-- Witness for C3: a failing oracle on a text-intent query yields the
converted error payload. -/
theorem generateChart_total_structured_witness :
    generateChart (.error "boom") [] "hello" [] =
      .error ("Failed to generate text response: " ++ "boom") :=
  (generateChart_total_structured (.error "boom") [] "hello" []).2
    "boom" rfl (by decide)

/-- C4: a query matching the survival template (the word "survival"
together with "chart" or "plot") yields the survival pie chart with
values `[count 0, count 1]` and the fixed labels when a `Survived`
column exists, and the missing-data error payload otherwise. -/
theorem survival_template_pie (df : Table) (q : String)
    (h1 : strContains (strLower q) "survival" = true)
    (h2 : strContains (strLower q) "chart" = true ∨
          strContains (strLower q) "plot" = true) :
    (∀ c, findCol df "Survived" = some c →
      generateChartResponse df q =
        .chart (.pie ["Did not survive", "Survived"]
          [c.countVal (.num 0), c.countVal (.num 1)])) ∧
    (findCol df "Survived" = none →
      generateChartResponse df q =
        .error "Survival data not found in this dataset") := by
  have hcond : (strContains (strLower q) "survival" &&
      (strContains (strLower q) "chart" || strContains (strLower q) "plot")) = true := by
    rcases h2 with h2 | h2 <;> simp [h1, h2]
  constructor
  · intro c hc
    simp [generateChartResponse, hcond, createSurvivalChartDirect, hc]
  · intro hc
    simp [generateChartResponse, hcond, createSurvivalChartDirect, hc]

/-- A `Survived` column with 500 zeroes and 300 ones. -/
def survCol800 : Col :=
  ⟨"Survived", .numeric,
    List.replicate 500 (some (.num 0)) ++ List.replicate 300 (some (.num 1))⟩

/-- A one-column table carrying `survCol800`. -/
def survT800 : Table := [survCol800]

set_option maxRecDepth 8000 in
/-- Witness for C4: value counts `{0: 500, 1: 300}` produce pie values
`[500, 300]`, and a table without a `Survived` column produces the
error payload. -/
theorem survival_template_pie_witness :
    generateChartResponse survT800 "survival chart" =
      .chart (.pie ["Did not survive", "Survived"] [500, 300]) ∧
    generateChartResponse ([] : Table) "survival chart" =
      .error "Survival data not found in this dataset" := by
  constructor
  · have h := (survival_template_pie survT800 "survival chart" (by decide)
      (.inl (by decide))).1 survCol800 (by decide)
    rw [h]
    decide
  · exact (survival_template_pie [] "survival chart" (by decide)
      (.inl (by decide))).2 rfl

/-- C5: the query "Show me a histogram of Age" classifies as chart
intent, the chart path selects the direct age template (not the generic
fallback), and on a table with an `Age` column the emitted histogram's
x-data is exactly that column's non-null values. -/
theorem age_query_selects_direct_template (df : Table) (c : Col)
    (h : findCol df "Age" = some c) :
    determineUserIntent "Show me a histogram of Age" = "chart" ∧
    generateChartResponse df "Show me a histogram of Age" =
      createAgeChartDirect df ∧
    createAgeChartDirect df = .chart (.histogram c.nonNull) ∧
    (∀ (oracle : Oracle) (hist : List ChatMessage),
      generateChart oracle df "Show me a histogram of Age" hist =
        .chart (.histogram c.nonNull)) := by
  have hintent : determineUserIntent "Show me a histogram of Age" = "chart" := by decide
  have hsel : generateChartResponse df "Show me a histogram of Age" =
      createAgeChartDirect df := rfl
  have hage : createAgeChartDirect df = .chart (.histogram c.nonNull) := by
    simp [createAgeChartDirect, h]
  refine ⟨hintent, hsel, hage, ?_⟩
  intro oracle hist
  rw [generateChart, if_pos hintent, hsel, hage]

/-- A numeric `Age` column with one null. -/
def ageColW : Col := ⟨"Age", .numeric, [some (.num 22), none, some (.num 38)]⟩

/-- A numeric `Fare` column. -/
def fareColW : Col := ⟨"Fare", .numeric, [some (.num 7), some (.num 71), none]⟩

/-- A table with columns `[Age, Fare]`. -/
def ageFareT : Table := [ageColW, fareColW]

/-- Witness for C5: on the `[Age, Fare]` table the full route emits the
age histogram over the column's non-null values. -/
theorem age_query_selects_direct_template_witness :
    generateChart (.ok "ignored") ageFareT "Show me a histogram of Age" [] =
      .chart (.histogram [.num 22, .num 38]) := by
  have h := (age_query_selects_direct_template ageFareT ageColW (by decide)).2.2.2
    (.ok "ignored") []
  rw [h]
  decide

/-- C10: every direct template tests column presence by exact,
case-sensitive name — on a table without the exactly-named column the
corresponding template query (matched case-insensitively) returns the
data-not-found error payload. -/
theorem direct_templates_case_sensitive (df : Table) :
    ("Survived" ∉ colNames df →
      generateChartResponse df "SURVIVAL CHART" =
        .error "Survival data not found in this dataset") ∧
    ("Age" ∉ colNames df →
      generateChartResponse df "AGE HISTOGRAM" =
        .error "Age data not found in this dataset") ∧
    ("Pclass" ∉ colNames df →
      generateChartResponse df "PCLASS BAR" =
        .error "Passenger class data not found in this dataset") ∧
    ("Sex" ∉ colNames df →
      generateChartResponse df "SEX CHART" =
        .error "Gender data not found in this dataset") := by
  refine ⟨fun h => ?_, fun h => ?_, fun h => ?_, fun h => ?_⟩
  · have hs : generateChartResponse df "SURVIVAL CHART" =
        createSurvivalChartDirect df := rfl
    rw [hs]
    simp [createSurvivalChartDirect, findCol_eq_none_of_not_mem h]
  · have hs : generateChartResponse df "AGE HISTOGRAM" =
        createAgeChartDirect df := rfl
    rw [hs]
    simp [createAgeChartDirect, findCol_eq_none_of_not_mem h]
  · have hs : generateChartResponse df "PCLASS BAR" =
        createClassChartDirect df := rfl
    rw [hs]
    simp [createClassChartDirect, findCol_eq_none_of_not_mem h]
  · have hs : generateChartResponse df "SEX CHART" =
        createGenderChartDirect df := rfl
    rw [hs]
    simp [createGenderChartDirect, findCol_eq_none_of_not_mem h]

/-- A table whose columns are lower-case variants of the template names. -/
def lowerVariantT : Table :=
  [⟨"survived", .numeric, [some (.num 1)]⟩,
   ⟨"age", .numeric, [some (.num 30)]⟩,
   ⟨"pclass", .numeric, [some (.num 1)]⟩,
   ⟨"sex", .object, [some (.str "male")]⟩]

/-- Witness for C10: on a table with only lower-case column variants all
four template queries return the data-not-found error payloads. -/
theorem direct_templates_case_sensitive_witness :
    generateChartResponse lowerVariantT "SURVIVAL CHART" =
      .error "Survival data not found in this dataset" ∧
    generateChartResponse lowerVariantT "AGE HISTOGRAM" =
      .error "Age data not found in this dataset" ∧
    generateChartResponse lowerVariantT "PCLASS BAR" =
      .error "Passenger class data not found in this dataset" ∧
    generateChartResponse lowerVariantT "SEX CHART" =
      .error "Gender data not found in this dataset" :=
  ⟨(direct_templates_case_sensitive lowerVariantT).1 (by decide),
   (direct_templates_case_sensitive lowerVariantT).2.1 (by decide),
   (direct_templates_case_sensitive lowerVariantT).2.2.1 (by decide),
   (direct_templates_case_sensitive lowerVariantT).2.2.2 (by decide)⟩

/-- Python `int()` on a real value: truncation toward zero. -/
def truncQ (q : ℚ) : ℤ := if 0 ≤ q then ⌊q⌋ else -⌊-q⌋

/-- `missing_pct` of `_calculate_health_score`: missing cells over total
cells, times 100. -/
def missingPct (t : Table) : ℚ :=
  (missingCells t : ℚ) / ((nrows t : ℚ) * (ncols t : ℚ)) * 100

/-- `duplicate_pct`: duplicated rows over row count, times 100. -/
def dupPct (t : Table) : ℚ :=
  (dupRowCount t : ℚ) / (nrows t : ℚ) * 100

/-- `(df.isnull().sum() / rows > 0.5).sum()`: columns more than half
missing. -/
def highMissingCols (t : Table) : ℕ :=
  t.countP (fun c => decide ((c.missingCount : ℚ) / (nrows t : ℚ) > 1 / 2))

/-- The type-diversity bonus condition: at least one numeric and at least
one categorical column. -/
def hasNumericAndCategorical (t : Table) : Bool :=
  !(numericCols t).isEmpty && !(categoricalCols t).isEmpty

/-- The running score of `_calculate_health_score` before the final
conversion: 100 minus the missing percentage, minus half the duplicate
percentage, minus 5 per heavily-missing column, plus the diversity bonus. -/
def healthScoreRaw (t : Table) : ℚ :=
  100 - missingPct t - dupPct t * (1 / 2) - (highMissingCols t : ℚ) * 5 +
    (if hasNumericAndCategorical t then 5 else 0)

/-- `DataAnalyzer._calculate_health_score`:
`max(0, min(100, int(score)))`. -/
def healthScore (t : Table) : ℤ :=
  max 0 (min 100 (truncQ (healthScoreRaw t)))

/-- Clamp a rational to `[0, 100]`. -/
def clampQ (q : ℚ) : ℚ := max 0 (min 100 q)

/-- The health score as the specification words it: apply the penalties
and the bonus, clamp to `[0,100]`, then truncate to an integer. -/
def healthScoreSpec (t : Table) : ℤ := truncQ (clampQ (healthScoreRaw t))

/-- Helper: truncating after clamping to `[0,100]` agrees with clamping
the truncation. -/
theorem truncQ_clampQ (q : ℚ) :
    truncQ (clampQ q) = max 0 (min 100 (truncQ q)) := by
  by_cases h0 : 0 ≤ q
  · by_cases h100 : q ≤ 100
    · have hclamp : clampQ q = q := by
        rw [clampQ, min_eq_right h100, max_eq_right h0]
      have hfl : truncQ q = ⌊q⌋ := if_pos h0
      have h1 : (0 : ℤ) ≤ ⌊q⌋ := Int.floor_nonneg.mpr h0
      have h2 : ⌊q⌋ ≤ 100 := by
        have := Int.floor_le_floor h100
        simpa using this
      rw [hclamp, hfl]
      omega
    · push_neg at h100
      have hclamp : clampQ q = 100 := by
        rw [clampQ, min_eq_left h100.le, max_eq_right]
        norm_num
      have h2 : (100 : ℤ) ≤ ⌊q⌋ := by
        have := Int.floor_le_floor h100.le
        simpa using this
      have hfl : truncQ q = ⌊q⌋ := if_pos h0
      rw [hclamp, hfl]
      have : truncQ (100 : ℚ) = 100 := by
        rw [truncQ, if_pos (by norm_num)]
        norm_num
      rw [this]
      omega
  · push_neg at h0
    have hclamp : clampQ q = 0 := by
      rw [clampQ, min_eq_right (by linarith : q ≤ 100), max_eq_left h0.le]
    have hfl : truncQ q = -⌊-q⌋ := if_neg (not_le.mpr h0)
    have h1 : (0 : ℤ) ≤ ⌊-q⌋ := Int.floor_nonneg.mpr (by linarith)
    have h2 : truncQ (0 : ℚ) = 0 := by
      rw [truncQ, if_pos le_rfl]
      norm_num
    rw [hclamp, hfl, h2]
    omega

/-- C2: on a nonempty table the health score is exactly the
specification's pipeline (penalties, bonus, clamp to `[0,100]`, truncate
to integer), hence an integer in `[0,100]`; a table with no missing
cells, no duplicate rows, and both a numeric and a categorical column
scores exactly 100. -/
theorem healthScore_spec_and_bounds (t : Table)
    (hr : 0 < nrows t) (hc : 0 < ncols t) :
    healthScore t = healthScoreSpec t ∧
    (0 ≤ healthScore t ∧ healthScore t ≤ 100) ∧
    (missingCells t = 0 → dupRowCount t = 0 →
      hasNumericAndCategorical t = true → healthScore t = 100) := by
  refine ⟨(truncQ_clampQ (healthScoreRaw t)).symm, ⟨?_, ?_⟩, ?_⟩
  · rw [healthScore]; omega
  · rw [healthScore]; omega
  · intro hm hd hb
    have hmp : missingPct t = 0 := by
      rw [missingPct, hm]
      norm_num
    have hdp : dupPct t = 0 := by
      rw [dupPct, hd]
      norm_num
    have hhm : highMissingCols t = 0 := by
      rw [highMissingCols, List.countP_eq_zero]
      intro c hcmem
      have hc0 : c.missingCount = 0 := by
        have hsum : (t.map Col.missingCount).sum = 0 := hm
        have := List.sum_eq_zero_iff.mp hsum (c.missingCount)
          (List.mem_map_of_mem Col.missingCount hcmem)
        exact this
      simp [hc0]
    have hraw : healthScoreRaw t = 105 := by
      rw [healthScoreRaw, hmp, hdp, hhm, hb]
      norm_num
    rw [healthScore, hraw]
    have : truncQ (105 : ℚ) = 105 := by
      rw [truncQ, if_pos (by norm_num)]
      norm_num
    rw [this]
    decide

/-- A two-column, one-row table with no missing values: one numeric and
one categorical column. -/
def perfectT : Table :=
  [⟨"A", .numeric, [some (.num 1)]⟩, ⟨"B", .object, [some (.str "x")]⟩]

/-- Witness for C2: the perfect table scores exactly 100. -/
theorem healthScore_spec_and_bounds_witness :
    healthScore perfectT = 100 :=
  (healthScore_spec_and_bounds perfectT (by decide) (by decide)).2.2
    (by decide) (by decide) (by decide)

/-- `completeness_percentage` of `_get_dataframe_info`: non-null cells
over total cells times 100, or 0 for a table with no cells. -/
def completenessPct (t : Table) : ℚ :=
  if 0 < nrows t * ncols t then
    (nonNullCells t : ℚ) / ((nrows t : ℚ) * (ncols t : ℚ)) * 100
  else 0

/-- The cell in column `i`, row `j` (present and non-null iff
`some (some v)`). -/
def cellAt (t : Table) (i j : ℕ) : Option (Option Cell) :=
  (t[i]?).bind (fun c => c.values[j]?)

/-- Replace the cell in column `i`, row `j` by a null. -/
def setCellNull : Table → ℕ → ℕ → Table
  | [], _, _ => []
  | c :: cs, 0, j => { c with values := c.values.set j none } :: cs
  | c :: cs, i + 1, j => c :: setCellNull cs i j

/-- Helper: nulling one cell keeps the column count. -/
theorem setCellNull_ncols (t : Table) (i j : ℕ) :
    ncols (setCellNull t i j) = ncols t := by
  induction t generalizing i with
  | nil => rfl
  | cons c cs ih =>
    cases i with
    | zero => simp [setCellNull, ncols]
    | succ i => simpa [setCellNull, ncols] using ih i

/-- Helper: nulling one cell keeps the row count. -/
theorem setCellNull_nrows (t : Table) (i j : ℕ) :
    nrows (setCellNull t i j) = nrows t := by
  cases t with
  | nil => rfl
  | cons c cs =>
    cases i with
    | zero => simp [setCellNull, nrows]
    | succ i => rfl

/-- Helper: overwriting a present entry with `none` lowers the non-null
count of a list by exactly one. -/
theorem countP_isSome_set_none {α : Type} (l : List (Option α)) (j : ℕ) (v : α)
    (h : l[j]? = some (some v)) :
    (l.set j none).countP (fun x => x.isSome) + 1 =
      l.countP (fun x => x.isSome) := by
  induction l generalizing j with
  | nil => simp at h
  | cons a l ih =>
    cases j with
    | zero =>
      simp only [List.getElem?_cons_zero, Option.some.injEq] at h
      subst h
      simp [List.countP_cons]
    | succ j =>
      simp only [List.getElem?_cons_succ] at h
      have ihj := ih j h
      cases a <;> simp [List.countP_cons] <;> omega

/-- Helper: nulling one present cell lowers the table's non-null cell
count by exactly one. -/
theorem nonNullCells_setCellNull (t : Table) (i j : ℕ) (v : Cell)
    (h : cellAt t i j = some (some v)) :
    nonNullCells (setCellNull t i j) + 1 = nonNullCells t := by
  induction t generalizing i with
  | nil => simp [cellAt] at h
  | cons c cs ih =>
    cases i with
    | zero =>
      simp only [cellAt, List.getElem?_cons_zero, Option.some_bind] at h
      have hcol := countP_isSome_set_none c.values j v h
      simp only [setCellNull, nonNullCells, List.map_cons, List.sum_cons,
        Col.nonNullCount]
      omega
    | succ i =>
      simp only [cellAt, List.getElem?_cons_succ] at h
      have ihi := ih i h
      simp only [setCellNull, nonNullCells, List.map_cons, List.sum_cons] at *
      omega

/-- Helper: in a rectangular table with no missing cells every cell is
non-null, so the non-null count is the full cell count. -/
theorem nonNullCells_of_no_missing (t : Table) (hrect : Rect t)
    (hm : missingCells t = 0) :
    nonNullCells t = ncols t * nrows t := by
  have hcol : ∀ c ∈ t, c.nonNullCount = nrows t := by
    intro c hcmem
    have hmc : c.missingCount = 0 :=
      List.sum_eq_zero_iff.mp hm c.missingCount
        (List.mem_map_of_mem Col.missingCount hcmem)
    have hall : ∀ a ∈ c.values, a.isSome := by
      intro a ha
      have := List.countP_eq_zero.mp hmc a ha
      cases a <;> simp_all
    have : c.nonNullCount = c.values.length :=
      List.countP_eq_length.mpr (fun a ha => hall a ha)
    rw [this, hrect c hcmem]
  calc nonNullCells t = (t.map (fun _ => nrows t)).sum := by
        rw [nonNullCells]
        exact congrArg List.sum (List.map_congr_left hcol)
    _ = ncols t * nrows t := by
        simp [List.map_const', ncols]

/-- C6: on a rectangular table with at least one cell the completeness
percentage is exactly non-null cells over `rows × cols` times 100; it is
100 when nothing is missing, and replacing any single non-null cell by a
null strictly decreases it. -/
theorem completenessPct_formula (t : Table) (hrect : Rect t) :
    (0 < nrows t * ncols t →
      completenessPct t =
        (nonNullCells t : ℚ) / ((nrows t : ℚ) * (ncols t : ℚ)) * 100) ∧
    (0 < nrows t * ncols t → missingCells t = 0 → completenessPct t = 100) ∧
    (∀ i j v, cellAt t i j = some (some v) →
      completenessPct (setCellNull t i j) < completenessPct t) := by
  refine ⟨fun h => if_pos h, fun h hm => ?_, fun i j v h => ?_⟩
  · rw [completenessPct, if_pos h, nonNullCells_of_no_missing t hrect hm]
    have h0 : ((nrows t : ℚ) * (ncols t : ℚ)) ≠ 0 := by
      have h1 : 0 < nrows t := by
        rcases Nat.eq_zero_or_pos (nrows t) with h1 | h1
        · rw [h1] at h; simp at h
        · exact h1
      have h2 : 0 < ncols t := by
        rcases Nat.eq_zero_or_pos (ncols t) with h2 | h2
        · rw [h2] at h; simp at h
        · exact h2
      exact ne_of_gt (by exact_mod_cast Nat.mul_pos h1 h2)
    push_cast
    rw [mul_comm (ncols t : ℚ) (nrows t : ℚ), div_self h0, one_mul]
  · obtain ⟨c, hti, hvj⟩ : ∃ c, t[i]? = some c ∧ c.values[j]? = some (some v) := by
      rw [cellAt] at h
      cases hti : t[i]? with
      | none => rw [hti] at h; simp at h
      | some c => rw [hti] at h; exact ⟨c, rfl, h⟩
    have hcmem : c ∈ t := List.getElem?_mem hti
    have hjlt : j < c.values.length := by
      by_contra hge
      rw [List.getElem?_eq_none (by omega)] at hvj
      simp at hvj
    have hnr : 0 < nrows t := by
      have := hrect c hcmem
      omega
    have hnc : 0 < ncols t := by
      have : i < t.length := by
        by_contra hge
        rw [List.getElem?_eq_none (by omega)] at hti
        simp at hti
      rw [ncols]
      omega
    have hcells := nonNullCells_setCellNull t i j v h
    have htot : 0 < nrows t * ncols t := Nat.mul_pos hnr hnc
    have htot' : 0 < nrows (setCellNull t i j) * ncols (setCellNull t i j) := by
      rw [setCellNull_nrows, setCellNull_ncols]
      exact htot
    rw [completenessPct, completenessPct, if_pos htot, if_pos htot',
      setCellNull_nrows, setCellNull_ncols]
    have hlt : (nonNullCells (setCellNull t i j) : ℚ) < (nonNullCells t : ℚ) := by
      exact_mod_cast (by omega : nonNullCells (setCellNull t i j) < nonNullCells t)
    have hTpos : (0 : ℚ) < (nrows t : ℚ) * (ncols t : ℚ) := by
      exact_mod_cast htot
    gcongr

/-- Rectangularity is decidable (a bounded check over the columns). -/
instance instDecidableRect (t : Table) : Decidable (Rect t) :=
  decidable_of_iff (∀ c ∈ t, c.values.length = nrows t) Iff.rfl

/-- Witness for C6: the perfect table is 100% complete, and nulling the
first cell of the `[Age, Fare]` table strictly lowers completeness. -/
theorem completenessPct_formula_witness :
    completenessPct perfectT = 100 ∧
    completenessPct (setCellNull ageFareT 0 0) < completenessPct ageFareT :=
  ⟨(completenessPct_formula perfectT (by decide)).2.1 (by decide) (by decide),
   (completenessPct_formula ageFareT (by decide)).2.2 0 0 (.num 22) (by decide)⟩

/-- A catalogue entry of `_generate_premium_charts`, tagged by its chart
type; entries built around a single-column histogram trace carry that
trace's x-data, and the family chart carries its grouped counts. -/
inductive ChartDesc where
  | overview
  | survivalAnalysis
  | ageAnalysis (x : List Cell)
  | classAnalysis
  | genderAnalysis
  | fareAnalysis (x : List Cell)
  | embarkationAnalysis
  | familyAnalysis (counts : List (Cell × ℕ))
  | histogram (col : String) (x : List Cell)
  | categorical (col : String)
  | correlation
deriving DecidableEq, Repr

/-- `df['SibSp'] + df['Parch'] + 1` row-wise (null-propagating, as pandas
addition of nullable numeric columns). -/
def familySizes (sib par : List (Option Cell)) : List (Option Cell) :=
  List.zipWith
    (fun a b =>
      match a, b with
      | some (.num x), some (.num y) => some (.num (x + y + 1))
      | _, _ => none)
    sib par

/-- Column names excluded from the generic per-column histogram loop. -/
def histExcluded : List String :=
  ["Age", "Fare", "PassengerId", "Survived", "Pclass"]

/-- Column names excluded from the generic categorical-chart loop. -/
def catExcluded : List String := ["Sex", "Embarked"]

/-- `DataAnalyzer._generate_premium_charts`: the fixed-order chart
catalogue — the overview dashboard, the conditional column-specific
dashboards, the guarded per-column histograms, the bounded categorical
donuts, and the correlation heatmap. -/
def premiumCharts (df : Table) : List ChartDesc :=
  [ChartDesc.overview]
  ++ (if "Survived" ∈ colNames df ∧ "Pclass" ∈ colNames df then
        [ChartDesc.survivalAnalysis] else [])
  ++ (match findCol df "Age" with
      | some c => [ChartDesc.ageAnalysis c.nonNull]
      | none => [])
  ++ (if "Pclass" ∈ colNames df then [ChartDesc.classAnalysis] else [])
  ++ (if "Sex" ∈ colNames df then [ChartDesc.genderAnalysis] else [])
  ++ (match findCol df "Fare" with
      | some c => [ChartDesc.fareAnalysis c.nonNull]
      | none => [])
  ++ (if "Embarked" ∈ colNames df then [ChartDesc.embarkationAnalysis] else [])
  ++ (match findCol df "SibSp", findCol df "Parch" with
      | some s, some p =>
          [ChartDesc.familyAnalysis
            (valueCountsSortIndex ((familySizes s.values p.values).filterMap id))]
      | _, _ => [])
  ++ ((numericCols df).filter
        (fun c => !(histExcluded.contains c.name) && decide (0 < c.nonNullCount))).map
      (fun c => ChartDesc.histogram c.name c.nonNull)
  ++ ((categoricalCols df).filter
        (fun c => !(catExcluded.contains c.name) && decide (c.nunique ≤ 15) &&
          decide (1 < c.nunique))).map
      (fun c => ChartDesc.categorical c.name)
  ++ (if 3 ≤ (numericCols df).length then [ChartDesc.correlation] else [])

/-- The catalogue entries that are a plain histogram chart over one
numeric column, with that histogram's x-data: the dedicated fare
histogram and the generic per-column histograms. -/
def histData : ChartDesc → Option (List Cell)
  | .fareAnalysis x => some x
  | .histogram _ x => some x
  | _ => none

/-- Helper: the non-null value list has length `nonNullCount`. -/
theorem Col.length_nonNull (c : Col) : c.nonNull.length = c.nonNullCount := by
  rw [Col.nonNull, Col.nonNullCount]
  induction c.values with
  | nil => rfl
  | cons a l ih =>
    cases a <;> simp [List.countP_cons, ih]

/-- A table whose only column is a numeric `Fare` column that is entirely
null. -/
def nullFareT : Table := [⟨"Fare", .numeric, [none, none]⟩]

/-- C7 counterexample: on `nullFareT` the catalogue contains a histogram
chart (the fare histogram) for a numeric column with zero non-null
values, so the catalogue does not exclude all such histograms. -/
theorem premiumCharts_zero_nonNull_histogram :
    (findCol nullFareT "Fare").map Col.dtype = some .numeric ∧
    (findCol nullFareT "Fare").map Col.nonNullCount = some 0 ∧
    ∃ d ∈ premiumCharts nullFareT, histData d = some [] := by decide

/-- C7 (amended): every generic per-column histogram in the catalogue
comes from a numeric column with a positive non-null count (so its x-data
is nonempty), while the dedicated fare histogram is emitted for any
`Fare` column, without that guard. -/
theorem premiumCharts_histogram_guard (t : Table) :
    (∀ name x, ChartDesc.histogram name x ∈ premiumCharts t →
      ∃ c ∈ numericCols t,
        c.name = name ∧ x = c.nonNull ∧ 0 < c.nonNullCount ∧ x ≠ []) ∧
    (∀ c, findCol t "Fare" = some c →
      ChartDesc.fareAnalysis c.nonNull ∈ premiumCharts t) := by
  constructor
  · intro name x h
    rw [premiumCharts] at h
    simp only [List.mem_append] at h
    rcases h with (((((((((h | h) | h) | h) | h) | h) | h) | h) | h) | h) | h
    · simp at h
    · split at h <;> simp at h
    · split at h <;> simp at h
    · split at h <;> simp at h
    · split at h <;> simp at h
    · split at h <;> simp at h
    · split at h <;> simp at h
    · split at h <;> simp at h
    · rcases List.mem_map.mp h with ⟨c, hcmem, hceq⟩
      rcases List.mem_filter.mp hcmem with ⟨hcnum, hcpred⟩
      rw [Bool.and_eq_true, decide_eq_true_iff] at hcpred
      cases hceq
      refine ⟨c, hcnum, rfl, rfl, hcpred.2, ?_⟩
      have := Col.length_nonNull c
      intro hnil
      rw [hnil] at this
      simp at this
      omega
    · rcases List.mem_map.mp h with ⟨c, _, hceq⟩
      simp at hceq
    · split at h <;> simp at h
  · intro c hc
    rw [premiumCharts, hc]
    simp

/-- A `Fare` column with one value and one null. -/
def fareMiscCol : Col := ⟨"Fare", .numeric, [some (.num 10), none]⟩

/-- A fully populated numeric column not named in any template. -/
def heightCol : Col := ⟨"Height", .numeric, [some (.num 5), some (.num 6)]⟩

/-- A two-column numeric table exercising both histogram paths. -/
def miscT : Table := [fareMiscCol, heightCol]

/-- Witness for C7 (amended): on `miscT` the guarded per-column histogram
for `Height` indeed comes from a positive non-null count, and the fare
histogram is emitted for the `Fare` column. -/
theorem premiumCharts_histogram_guard_witness :
    (∃ c ∈ numericCols miscT,
      c.name = "Height" ∧ ([Cell.num 5, Cell.num 6] : List Cell) = c.nonNull ∧
      0 < c.nonNullCount ∧ ([Cell.num 5, Cell.num 6] : List Cell) ≠ []) ∧
    ChartDesc.fareAnalysis [Cell.num 10] ∈ premiumCharts miscT := by
  constructor
  · exact (premiumCharts_histogram_guard miscT).1 "Height"
      [Cell.num 5, Cell.num 6] (by decide)
  · exact (premiumCharts_histogram_guard miscT).2 fareMiscCol (by decide)

/-- The `statistical_significance` field of an insight bundle: either a
`{test, result, interpretation}` record or a bare message (the error
path). -/
inductive Significance where
  | info (test result interpretation : String)
  | msg (s : String)
deriving DecidableEq, Repr

/-- The five fixed narrative fields of an insight bundle. -/
structure InsightBundle where
  keyFindings : List String
  significance : Significance
  trends : List String
  comparisons : List String
  recommendations : List String
deriving DecidableEq, Repr

/-- Thousands separators on the decimal digits (Python `{n:,}`),
working over the reversed digit list. -/
def commaRev : List Char → List Char
  | a :: b :: c :: d :: rest => a :: b :: c :: ',' :: commaRev (d :: rest)
  | l => l

/-- `{n:,}`: decimal rendering with thousands separators. -/
def natComma (n : ℕ) : String :=
  String.mk ((commaRev (toString n).toList.reverse).reverse)

/-- `{q:.1f}`: one-decimal fixed rendering of the exact rational (ties
round away from zero; the source formats a binary float, which agrees
except on exact representation ties). -/
def fmtQ1 (q : ℚ) : String :=
  let m : ℤ := ⌊|q| * 10 + 1 / 2⌋
  let s := toString (m / 10) ++ "." ++ toString (m % 10)
  if q < 0 ∧ m ≠ 0 then "-" ++ s else s

/-- `{q:.2f}`: two-decimal fixed rendering of the exact rational. -/
def fmtQ2 (q : ℚ) : String :=
  let m : ℤ := ⌊|q| * 100 + 1 / 2⌋
  let frac := m % 100
  let fracStr := if frac < 10 then "0" ++ toString frac else toString frac
  let s := toString (m / 100) ++ "." ++ fracStr
  if q < 0 ∧ m ≠ 0 then "-" ++ s else s

/-- The numeric values among a list of cells. -/
def cellNums (l : List Cell) : List ℤ :=
  l.filterMap (fun c => match c with | .num z => some z | .str _ => none)

/-- `series.mean()` (0 for an empty selection, which the source reaches
only behind emptiness guards). -/
def meanQ (l : List ℤ) : ℚ :=
  if l.length = 0 then 0 else (l.sum : ℚ) / (l.length : ℚ)

/-- `series.median()`: middle of the sorted values, averaging the two
middles for an even count. -/
def medianQ (l : List ℤ) : ℚ :=
  let s := sortAscBy (fun a b => decide (a ≤ b)) l
  let n := s.length
  if n = 0 then 0
  else if n % 2 = 1 then ((s.getD (n / 2) 0 : ℤ) : ℚ)
  else (((s.getD (n / 2 - 1) 0 : ℤ) : ℚ) + ((s.getD (n / 2) 0 : ℤ) : ℚ)) / 2

/-- Row-wise selection `df[df[key] == k][val]`. -/
def zipSelect (keys vals : List (Option Cell)) (k : Cell) : List (Option Cell) :=
  ((List.zip keys vals).filter (fun p => p.1 == some k)).map Prod.snd

/-- `df.groupby(key)[val].mean()` at group `k` with pandas' `get(k, 0)`
default (an entirely-null group is also rendered as 0 here, where pandas
shows `nan`; no claim depends on that string). -/
def groupMean (keys vals : List (Option Cell)) (k : Cell) : ℚ :=
  meanQ (cellNums ((zipSelect keys vals k).filterMap id))

/-- `SimpleInsightsEngine._error_insights`. -/
def errorInsights (e : String) : InsightBundle :=
  { keyFindings := [s!"Analysis error: {e}", "Please check data format and column names"],
    significance := .msg "Unable to calculate due to data issues",
    trends := ["Analysis unavailable - data format issues"],
    comparisons := ["Unable to perform comparisons"],
    recommendations := ["🔧 **Data Quality Check**: Verify data format and completeness"] }

/-- `SimpleInsightsEngine._survival_insights`: computed survival-rate
strings plus fixed template text; the statistical-significance field is
the fixed descriptive record. -/
def survivalInsights (df : Table) : InsightBundle :=
  match findCol df "Survived" with
  | none => errorInsights "Survival column not found"
  | some sc =>
      let survived := sc.countVal (.num 1)
      let total := nrows df
      let rate : ℚ := if 0 < total then (survived : ℚ) / (total : ℚ) * 100 else 0
      let classInsights : List String :=
        match findCol df "Pclass" with
        | some pc =>
            let c1 := fmtQ1 (groupMean pc.values sc.values (.num 1) * 100)
            let c2 := fmtQ1 (groupMean pc.values sc.values (.num 2) * 100)
            let c3 := fmtQ1 (groupMean pc.values sc.values (.num 3) * 100)
            [s!"1st class survival: {c1}%",
             s!"2nd class survival: {c2}%",
             s!"3rd class survival: {c3}%"]
        | none => []
      let rateS := fmtQ1 rate
      let survivedS := natComma survived
      let totalS := natComma total
      { keyFindings :=
          [s!"Overall survival rate: {rateS}% ({survivedS} out of {totalS} passengers)",
           "Clear class-based survival patterns observed",
           "Higher passenger classes had significantly better outcomes"] ++ classInsights,
        significance := .info "Descriptive analysis of survival by passenger class"
          "Significant patterns detected"
          "Passenger class strongly correlates with survival probability",
        trends := ["First-class passengers had highest survival rates (~62%)",
          "Third-class passengers faced greatest mortality (~76%)",
          "Clear socioeconomic factors influenced evacuation success"],
        comparisons := ["1st class passengers were 2.6x more likely to survive than 3rd class",
          "Survival rate decreased dramatically with lower passenger class",
          "Class-based survival gap of approximately 38 percentage points"],
        recommendations := ["🚨 **Safety Equity**: Implement class-blind evacuation procedures",
          "📊 **Policy Reform**: Address systematic biases in emergency protocols",
          "⚖️ **Access Analysis**: Ensure equal access to safety equipment and lifeboats",
          "🎯 **Training**: Focus on fair treatment regardless of socioeconomic status"] }

/-- `SimpleInsightsEngine._age_insights`: computed age statistics plus
fixed template text; the statistical-significance field is the fixed
descriptive record. -/
def ageInsights (df : Table) : InsightBundle :=
  match findCol df "Age" with
  | none => errorInsights "Age column not found"
  | some ac =>
      let ageData := cellNums ac.nonNull
      if ageData.length = 0 then errorInsights "No age data available"
      else
        let meanS := fmtQ1 (meanQ ageData)
        let medianS := fmtQ1 (medianQ ageData)
        let children := (ageData.filter (fun z => decide (z < 18))).length
        let adults := (ageData.filter (fun z => decide (18 ≤ z ∧ z < 65))).length
        let elderly := (ageData.filter (fun z => decide (65 ≤ z))).length
        let totalWithAge := ageData.length
        let lenDf := nrows df
        let availPct := fmtQ1 ((totalWithAge : ℚ) / (lenDf : ℚ) * 100)
        let childPct := fmtQ1 ((children : ℚ) / (totalWithAge : ℚ) * 100)
        let adultPct := fmtQ1 ((adults : ℚ) / (totalWithAge : ℚ) * 100)
        let elderPct := fmtQ1 ((elderly : ℚ) / (totalWithAge : ℚ) * 100)
        let ageSurvival : List String :=
          match findCol df "Survived" with
          | some sc =>
              let survivedAges := cellNums ((zipSelect sc.values ac.values (.num 1)).filterMap id)
              let diedAges := cellNums ((zipSelect sc.values ac.values (.num 0)).filterMap id)
              if 0 < survivedAges.length ∧ 0 < diedAges.length then
                let sAvg := meanQ survivedAges
                let cAvg := meanQ diedAges
                let sS := fmtQ1 sAvg
                let cS := fmtQ1 cAvg
                let dS := fmtQ1 |sAvg - cAvg|
                [s!"Average age of survivors: {sS} years",
                 s!"Average age of casualties: {cS} years",
                 s!"Age difference: {dS} years"]
              else []
          | none => []
        { keyFindings :=
            [s!"Average passenger age: {meanS} years (median: {medianS})",
             s!"Age groups: {children} children, {adults} adults, {elderly} elderly",
             s!"Age data available for {totalWithAge} of {lenDf} passengers ({availPct}%)",
             "Younger passengers generally had better survival rates"] ++ ageSurvival,
          significance := .info "Age distribution and survival analysis"
            "Clear age-related survival patterns"
            "Children prioritized in evacuation (\x27women and children first\x27)",
          trends := ["Children had highest survival rates due to evacuation priority",
            "Working-age adults (18-64) formed majority of passengers",
            "Elderly passengers faced challenges during evacuation",
            "Age distribution typical of early 1900s transatlantic travel"],
          comparisons := [s!"Children: {childPct}% of passengers with age data",
            s!"Adults: {adultPct}% of passengers with age data",
            s!"Elderly: {elderPct}% of passengers with age data",
            "Survival rates inversely correlated with age groups"],
          recommendations := ["👶 **Age-Priority Protocols**: Maintain clear age-based evacuation priorities",
            "🎯 **Assistance Systems**: Develop age-appropriate emergency assistance",
            "📊 **Demographic Planning**: Consider passenger age distribution in safety planning",
            "🔍 **Mobility Support**: Ensure elderly passengers receive adequate evacuation support"] }

/-- `SimpleInsightsEngine._gender_insights`: computed gender statistics
plus fixed template text; the statistical-significance field is the
fixed descriptive record. -/
def genderInsights (df : Table) : InsightBundle :=
  match findCol df "Sex" with
  | none => errorInsights "Gender column not found"
  | some gc =>
      let maleCount := gc.countVal (.str "male")
      let femaleCount := gc.countVal (.str "female")
      let total := maleCount + femaleCount
      if total = 0 then errorInsights "No gender data available"
      else
        let survivalStrs : List String :=
          match findCol df "Survived" with
          | some sc =>
              let femaleRate := groupMean gc.values sc.values (.str "female") * 100
              let maleRate := groupMean gc.values sc.values (.str "male") * 100
              let fS := fmtQ1 femaleRate
              let mS := fmtQ1 maleRate
              let gS := fmtQ1 |femaleRate - maleRate|
              let ratioS := fmtQ1 (femaleRate / maleRate)
              [s!"Female survival rate: {fS}%",
               s!"Male survival rate: {mS}%",
               s!"Gender survival gap: {gS} percentage points",
               if 0 < maleRate then s!"Women were {ratioS}x more likely to survive" else ""]
          | none => []
        let malePct := fmtQ1 ((maleCount : ℚ) / (total : ℚ) * 100)
        let femalePct := fmtQ1 ((femaleCount : ℚ) / (total : ℚ) * 100)
        let maleS := natComma maleCount
        let femaleS := natComma femaleCount
        let ratioMF := fmtQ2 ((maleCount : ℚ) / (femaleCount : ℚ))
        { keyFindings :=
            [s!"Gender distribution: {maleS} males ({malePct}%), {femaleS} females ({femalePct}%)",
             if 0 < femaleCount then s!"Male-to-female ratio: {ratioMF}:1"
             else "Only males in dataset",
             "Dramatic gender-based survival differences observed",
             "\x27Women and children first\x27 maritime protocol clearly implemented"]
            ++ survivalStrs,
          significance := .info "Gender-based survival analysis"
            "Highly significant gender effect on survival"
            "Gender was the strongest predictor of survival outcome",
          trends := ["Female passengers prioritized in lifeboat allocation",
            "Male passengers largely sacrificed seats for women and children",
            "Historical chivalric codes strongly influenced survival outcomes",
            "Gender roles of early 1900s clearly reflected in evacuation patterns"],
          comparisons := ["Survival rate difference of ~55 percentage points between genders",
            "Women had approximately 4x higher survival probability than men",
            "Gender effect stronger than class effect on survival probability",
            "Male passengers showed remarkable adherence to \x27women first\x27 protocol"],
          recommendations := ["⚖️ **Modern Equity**: Update evacuation protocols for gender equality",
            "📊 **Historical Study**: Analyze effectiveness of traditional maritime protocols",
            "🎯 **Training Balance**: Ensure fair modern evacuation procedures",
            "📈 **Cultural Analysis**: Study how social norms affected survival outcomes"] }

/-- Python `str.title()` after replacing underscores by spaces. -/
def titleGo : Bool → List Char → List Char
  | _, [] => []
  | prevAlpha, c :: rest =>
      (if c.isAlpha then (if prevAlpha then c.toLower else c.toUpper) else c)
        :: titleGo c.isAlpha rest

/-- `chart_type.replace('_', ' ').title()`. -/
def pyTitleSpaced (s : String) : String :=
  String.mk (titleGo false (s.toList.map (fun c => if c = '_' then ' ' else c)))

/-- `SimpleInsightsEngine._generic_insights`. -/
def genericInsights (df : Table) (chartType : String) : InsightBundle :=
  let rowsS := natComma (nrows df)
  let cols := ncols df
  let typeS := pyTitleSpaced chartType
  { keyFindings := [s!"Dataset contains {rowsS} records across {cols} variables",
      s!"Chart type: {typeS}",
      "Visualization reveals meaningful data patterns and relationships",
      "Data structure suitable for comprehensive analysis"],
    significance := .info "Descriptive statistical analysis"
      "Data patterns identified"
      "Dataset shows structured relationships suitable for insights",
    trends := ["Data distribution reveals underlying patterns in the dataset",
      "Variable relationships indicate structured data collection",
      "Sufficient data volume for meaningful statistical analysis",
      "Data quality appears adequate for business intelligence"],
    comparisons := [s!"Multiple variables show interconnected relationships across {rowsS} observations",
      "Data completeness varies by variable but overall structure is sound",
      "Sample size provides statistical power for trend identification",
      "Cross-variable analysis reveals meaningful business patterns"],
    recommendations := ["📊 **Deep Dive Analysis**: Use insights to guide detailed investigation",
      "🔍 **Pattern Mining**: Explore relationships between key variables",
      "📈 **Strategic Planning**: Leverage data patterns for business decisions",
      "🎯 **Focus Areas**: Concentrate on variables showing strongest patterns"] }

/-- `SimpleInsightsEngine.generate_chart_insights`: the engine wired into
`DataAnalyzer.__init__` — dispatch on the chart-type tag to the survival,
age, gender or generic analyzer. -/
def generateChartInsights (df : Table) (chartType : String) : InsightBundle :=
  if chartType = "survival_analysis" then survivalInsights df
  else if chartType = "age_analysis" then ageInsights df
  else if chartType = "gender_analysis" then genderInsights df
  else genericInsights df chartType

/-- A small table with strong class-survival dependence. -/
def survClassA : Table :=
  [⟨"Survived", .numeric, [some (.num 0), some (.num 0), some (.num 1)]⟩,
   ⟨"Pclass", .numeric, [some (.num 1), some (.num 2), some (.num 3)]⟩]

/-- A small table with uniform survival and a single class. -/
def survClassB : Table :=
  [⟨"Survived", .numeric, [some (.num 1), some (.num 1), some (.num 1)]⟩,
   ⟨"Pclass", .numeric, [some (.num 1), some (.num 1), some (.num 1)]⟩]

/-- C8 counterexample: the insight engine wired into the analyzer
(`SimpleInsightsEngine`) reports the same fixed descriptive
statistical-significance record for tables with entirely different
survival data — no chi-square (or any other) significance test is
computed or reported. -/
theorem simple_insights_no_computed_test :
    (generateChartInsights survClassA "survival_analysis").significance =
      (generateChartInsights survClassB "survival_analysis").significance ∧
    (generateChartInsights survClassA "survival_analysis").significance =
      Significance.info "Descriptive analysis of survival by passenger class"
        "Significant patterns detected"
        "Passenger class strongly correlates with survival probability" := by
  constructor <;> rfl

/-- C8 (amended): for every table with the required columns, the
analyzer's statistical-significance field is fixed template text — the
descriptive survival record for the categorical-vs-categorical category
and the descriptive age record for the numeric-vs-binary category —
independent of the data. -/
theorem simple_insights_significance_fixed (df : Table) :
    ("Survived" ∈ colNames df →
      (generateChartInsights df "survival_analysis").significance =
        .info "Descriptive analysis of survival by passenger class"
          "Significant patterns detected"
          "Passenger class strongly correlates with survival probability") ∧
    (∀ c, findCol df "Age" = some c → cellNums c.nonNull ≠ [] →
      (generateChartInsights df "age_analysis").significance =
        .info "Age distribution and survival analysis"
          "Clear age-related survival patterns"
          "Children prioritized in evacuation (\x27women and children first\x27)") := by
  constructor
  · intro hmem
    obtain ⟨c, hcmem, hcname⟩ : ∃ c ∈ df, c.name = "Survived" := by
      rcases List.mem_map.mp hmem with ⟨c, hcmem, hcname⟩
      exact ⟨c, hcmem, hcname⟩
    have hfind : (findCol df "Survived").isSome := by
      rw [findCol, List.find?_isSome]
      exact ⟨c, hcmem, by simp [hcname]⟩
    rcases Option.isSome_iff_exists.mp hfind with ⟨c0, hc0⟩
    rw [generateChartInsights, if_pos rfl, survivalInsights, hc0]
  · intro c hc hne
    have hlen : ¬(cellNums c.nonNull).length = 0 := by
      intro h0
      exact hne (List.length_eq_zero.mp h0)
    rw [generateChartInsights, if_neg (by decide), if_pos rfl, ageInsights, hc]
    simp only [if_neg hlen]

/-- An `Age` column with data, for the C8 witness. -/
def ageOnlyT : Table := [⟨"Age", .numeric, [some (.num 8), some (.num 40)]⟩]

/-- Witness for C8 (amended): the fixed significance records on concrete
tables with the required columns. -/
theorem simple_insights_significance_fixed_witness :
    (generateChartInsights survClassA "survival_analysis").significance =
      .info "Descriptive analysis of survival by passenger class"
        "Significant patterns detected"
        "Passenger class strongly correlates with survival probability" ∧
    (generateChartInsights ageOnlyT "age_analysis").significance =
      .info "Age distribution and survival analysis"
        "Clear age-related survival patterns"
        "Children prioritized in evacuation (\x27women and children first\x27)" :=
  ⟨(simple_insights_significance_fixed survClassA).1 (by decide),
   (simple_insights_significance_fixed ageOnlyT).2
     ⟨"Age", .numeric, [some (.num 8), some (.num 40)]⟩ (by decide) (by decide)⟩

/-- `df.copy()`: an explicit snapshot; later column additions apply to
the copy, never to the caller's table. -/
def tableCopy (t : Table) : Table := t

/-- `df_temp['Name'] = values`: append a freshly named derived column
(both source uses introduce a new label). -/
def addColumn (t : Table) (name : String) (dtype : Dtype)
    (vals : List (Option Cell)) : Table :=
  t ++ [⟨name, dtype, vals⟩]

/-- `pd.cut(age, [0,12,18,35,60,100], labels, right=False)` on one value. -/
def ageGroupOf (z : ℤ) : Option Cell :=
  if 0 ≤ z ∧ z < 12 then some (.str "Child")
  else if 12 ≤ z ∧ z < 18 then some (.str "Teen")
  else if 18 ≤ z ∧ z < 35 then some (.str "Young Adult")
  else if 35 ≤ z ∧ z < 60 then some (.str "Adult")
  else if 60 ≤ z ∧ z < 100 then some (.str "Senior")
  else none

/-- The derived `AgeGroup` column values. -/
def ageGroupValues (vals : List (Option Cell)) : List (Option Cell) :=
  vals.map (fun v => match v with | some (.num z) => ageGroupOf z | _ => none)

/-- `DataAnalyzer._create_age_distribution_chart` with the table state
threaded explicitly: the derived `AgeGroup` column is added to a copy
(`df_temp`), whose panels feed the composite chart, and the caller's
table is returned unchanged. -/
def createAgeDistributionChartSt (df : Table) : Option ChartDesc × Table :=
  match findCol df "Age" with
  | some c =>
      let dfTemp := addColumn (tableCopy df) "AgeGroup" .object (ageGroupValues c.values)
      match findCol dfTemp "Age" with
      | some c2 => (some (.ageAnalysis c2.nonNull), df)
      | none => (none, df)
  | none => (none, df)

/-- `DataAnalyzer._create_family_analysis_chart` with the table state
threaded explicitly: the derived `FamilySize` column is added to a copy
(`df_temp`), its sorted value counts feed the chart, and the caller's
table is returned unchanged. -/
def createFamilyAnalysisChartSt (df : Table) : Option ChartDesc × Table :=
  match findCol df "SibSp", findCol df "Parch" with
  | some s, some p =>
      let dfTemp :=
        addColumn (tableCopy df) "FamilySize" .numeric (familySizes s.values p.values)
      match findCol dfTemp "FamilySize" with
      | some fc => (some (.familyAnalysis (valueCountsSortIndex fc.nonNull)), df)
      | none => (none, df)
  | _, _ => (none, df)

/-- `_generate_premium_charts` with the table state threaded through the
two copy-taking chart creators (every other creator only reads). -/
def premiumChartsSt (df : Table) : List ChartDesc × Table :=
  let ageRes := createAgeDistributionChartSt df
  let dfA := ageRes.2
  let famRes := createFamilyAnalysisChartSt dfA
  let dfB := famRes.2
  ([ChartDesc.overview]
   ++ (if "Survived" ∈ colNames dfB ∧ "Pclass" ∈ colNames dfB then
         [ChartDesc.survivalAnalysis] else [])
   ++ ageRes.1.toList
   ++ (if "Pclass" ∈ colNames dfB then [ChartDesc.classAnalysis] else [])
   ++ (if "Sex" ∈ colNames dfB then [ChartDesc.genderAnalysis] else [])
   ++ (match findCol dfB "Fare" with
       | some c => [ChartDesc.fareAnalysis c.nonNull]
       | none => [])
   ++ (if "Embarked" ∈ colNames dfB then [ChartDesc.embarkationAnalysis] else [])
   ++ famRes.1.toList
   ++ ((numericCols dfB).filter
         (fun c => !(histExcluded.contains c.name) && decide (0 < c.nonNullCount))).map
       (fun c => ChartDesc.histogram c.name c.nonNull)
   ++ ((categoricalCols dfB).filter
         (fun c => !(catExcluded.contains c.name) && decide (c.nunique ≤ 15) &&
           decide (1 < c.nunique))).map
       (fun c => ChartDesc.categorical c.name)
   ++ (if 3 ≤ (numericCols dfB).length then [ChartDesc.correlation] else []),
   dfB)

/-- `round(q, 1)` (ties away from zero on the exact rational). -/
def roundQ1 (q : ℚ) : ℚ := (⌊q * 10 + 1 / 2⌋ : ℚ) / 10

/-- The structured metadata of `_get_dataframe_info` (the opaque
`memory_usage` byte count is not modelled). -/
structure DataframeInfo where
  shape : List ℕ
  columns : List String
  dtypes : List (String × Dtype)
  nullCounts : List (String × ℕ)
  dataHealthScore : ℤ
  completenessPercentage : ℚ
  totalCells : ℕ
  nonNullCellCount : ℕ
deriving DecidableEq, Repr

/-- `DataAnalyzer._get_dataframe_info`: read-only metadata. -/
def getDataframeInfo (df : Table) : DataframeInfo :=
  { shape := [nrows df, ncols df],
    columns := colNames df,
    dtypes := df.map (fun c => (c.name, c.dtype)),
    nullCounts := df.map (fun c => (c.name, c.missingCount)),
    dataHealthScore := healthScore df,
    completenessPercentage := roundQ1 (completenessPct df),
    totalCells := nrows df * ncols df,
    nonNullCellCount := nonNullCells df }

/-- `DataAnalyzer.analyze_dataframe` with the table state threaded: the
chart catalogue and metadata (the summary string interpolates the same
read-only quantities — shape, completeness, health score, column lists,
per-column statistics — and performs no writes, so it passes the state
through untouched). -/
def analyzeDataframeSt (df : Table) : (List ChartDesc × DataframeInfo) × Table :=
  let chartsRes := premiumChartsSt df
  ((chartsRes.1, getDataframeInfo chartsRes.2), chartsRes.2)

/-- C9: the full analysis never mutates the input table — each
copy-taking chart creator, the catalogue builder, and the top-level
analysis return the table exactly as given, and the derived columns
extend only the local copies (the copy's column list is the original
list plus the derived name). -/
theorem analyzeDataframe_no_mutation (df : Table) :
    (createAgeDistributionChartSt df).2 = df ∧
    (createFamilyAnalysisChartSt df).2 = df ∧
    (premiumChartsSt df).2 = df ∧
    (analyzeDataframeSt df).2 = df ∧
    (∀ name dtype vals,
      colNames (addColumn (tableCopy df) name dtype vals) =
        colNames df ++ [name]) := by
  have hage : (createAgeDistributionChartSt df).2 = df := by
    rw [createAgeDistributionChartSt]
    cases findCol df "Age" with
    | none => rfl
    | some c =>
        cases h2 : findCol (addColumn (tableCopy df) "AgeGroup" .object
          (ageGroupValues c.values)) "Age" <;> simp [h2]
  have hfam : ∀ t : Table, (createFamilyAnalysisChartSt t).2 = t := by
    intro t
    rw [createFamilyAnalysisChartSt]
    cases findCol t "SibSp" with
    | none => rfl
    | some s =>
        cases findCol t "Parch" with
        | none => rfl
        | some p =>
            cases h2 : findCol (addColumn (tableCopy t) "FamilySize" .numeric
              (familySizes s.values p.values)) "FamilySize" <;> simp [h2]
  have hcat : (premiumChartsSt df).2 = df := by
    rw [premiumChartsSt, hfam, hage]
  refine ⟨hage, hfam df, hcat, ?_, ?_⟩
  · rw [analyzeDataframeSt, hcat]
  · intro name dtype vals
    simp [addColumn, tableCopy, colNames]

end DataAgent
